import Mathlib

/-!
Verification of the gowsoos connection-handling engine: a shallow embedding
of the proxy (handshake negotiation, payload discard, bidirectional relay,
connection orchestration), the metrics collector construction, and the
server start-up logic, together with theorems settling the spec claims.

Machine integers are modelled as `Nat` reduced modulo `2 ^ 32` where the Go
code uses `uint32`; byte streams are lists of naturals below 256.
-/

namespace Gowsoos

/-! ## Constants from the proxy source -/

def webSocketMagicString : String := "258EAFA5-E914-47DA-95CA-C5AB0DC85B11"

def defaultHandshakeStatus : String := "101 Switching Protocols"

/-- `defaultReadBufferSize = 32 * 1024` (32 KB). -/
def defaultReadBufferSize : Nat := 32 * 1024

/-- The hardcoded `secWebSocketKey` local in `performHandshake`. -/
def secWebSocketKey : String := "Y2FmcnQ2NTRlY2Z2Z3ludTg="

/-! ## SHA-1 (crypto/sha1), on byte lists -/

/-- Truncate to a 32-bit word. -/
def w32 (x : Nat) : Nat := x % 4294967296

/-- Rotate a 32-bit word left by `n` bits. -/
def rotl32 (n x : Nat) : Nat := w32 ((x <<< n) ||| (x >>> (32 - n)))

/-- Big-endian combination of four bytes into one 32-bit word. -/
def be32 (a b c d : Nat) : Nat := ((a * 256 + b) * 256 + c) * 256 + d

/-- Split a 64-byte block into sixteen big-endian 32-bit words. -/
def blockWords : List Nat → List Nat
  | a :: b :: c :: d :: rest => be32 a b c d :: blockWords rest
  | _ => []

/-- Message-schedule extension: `rws` is the reversed list of words produced
so far (head is the newest, so `w[i-3]` is `rws.getD 2 0` and `w[i-16]` is
`rws.getD 15 0`); `k` counts the words still to produce. -/
def sha1ExtendLoop : Nat → List Nat → List Nat
  | 0, rws => rws
  | k + 1, rws =>
    let x := rotl32 1 ((rws.getD 2 0) ^^^ (rws.getD 7 0) ^^^ (rws.getD 13 0) ^^^ (rws.getD 15 0))
    sha1ExtendLoop k (x :: rws)

/-- The eighty words of the message schedule for one block. -/
def sha1Schedule (block : List Nat) : List Nat :=
  (sha1ExtendLoop 64 (blockWords block).reverse).reverse

/-- The round function `f` of SHA-1. -/
def sha1F (i b c d : Nat) : Nat :=
  if i < 20 then (b &&& c) ||| ((b ^^^ 0xFFFFFFFF) &&& d)
  else if i < 40 then b ^^^ c ^^^ d
  else if i < 60 then (b &&& c) ||| (b &&& d) ||| (c &&& d)
  else b ^^^ c ^^^ d

/-- The round constant `k` of SHA-1. -/
def sha1K (i : Nat) : Nat :=
  if i < 20 then 0x5A827999
  else if i < 40 then 0x6ED9EBA1
  else if i < 60 then 0x8F1BBCDC
  else 0xCA62C1D6

/-- One compression round, consuming the indexed schedule word `(i, w)`. -/
def sha1Round (st : Nat × Nat × Nat × Nat × Nat) (iw : Nat × Nat) :
    Nat × Nat × Nat × Nat × Nat :=
  let (a, b, c, d, e) := st
  let (i, w) := iw
  let temp := w32 (rotl32 5 a + sha1F i b c d + e + sha1K i + w)
  (temp, a, rotl32 30 b, c, d)

/-- Compress one 64-byte block into the running hash state. -/
def sha1Compress (h : Nat × Nat × Nat × Nat × Nat) (block : List Nat) :
    Nat × Nat × Nat × Nat × Nat :=
  let (h0, h1, h2, h3, h4) := h
  let (a, b, c, d, e) := (sha1Schedule block).enum.foldl sha1Round (h0, h1, h2, h3, h4)
  (w32 (h0 + a), w32 (h1 + b), w32 (h2 + c), w32 (h3 + d), w32 (h4 + e))

/-- Process `k` consecutive 64-byte blocks of `bytes`. -/
def sha1Blocks : Nat → (Nat × Nat × Nat × Nat × Nat) → List Nat → Nat × Nat × Nat × Nat × Nat
  | 0, h, _ => h
  | k + 1, h, bytes => sha1Blocks k (sha1Compress h (bytes.take 64)) (bytes.drop 64)

/-- MD-style padding: `0x80`, zeros to 56 mod 64, then the bit length as
eight big-endian bytes. -/
def sha1Pad (msg : List Nat) : List Nat :=
  let ml := msg.length * 8
  let zeros := (55 + 64 - msg.length % 64) % 64
  msg ++ [0x80] ++ List.replicate zeros 0 ++
    [ml >>> 56 % 256, ml >>> 48 % 256, ml >>> 40 % 256, ml >>> 32 % 256,
     ml >>> 24 % 256, ml >>> 16 % 256, ml >>> 8 % 256, ml % 256]

/-- Serialize one 32-bit word as four big-endian bytes. -/
def wordBytes (x : Nat) : List Nat := [x >>> 24 % 256, x >>> 16 % 256, x >>> 8 % 256, x % 256]

/-- SHA-1 digest of a byte list, as twenty bytes. -/
def sha1 (msg : List Nat) : List Nat :=
  let padded := sha1Pad msg
  let (h0, h1, h2, h3, h4) :=
    sha1Blocks (padded.length / 64)
      (0x67452301, 0xEFCDAB89, 0x98BADCFE, 0x10325476, 0xC3D2E1F0) padded
  wordBytes h0 ++ wordBytes h1 ++ wordBytes h2 ++ wordBytes h3 ++ wordBytes h4

/-! ## Base64 (encoding/base64, StdEncoding) -/

def base64Alphabet : List Char :=
  "ABCDEFGHIJKLMNOPQRSTUVWXYZabcdefghijklmnopqrstuvwxyz0123456789+/".data

def b64Char (n : Nat) : Char := base64Alphabet.getD n (Char.ofNat 65)

/-- Standard base64 with `=` padding. -/
def base64Encode : List Nat → String
  | [] => ""
  | [a] =>
    String.mk [b64Char (a >>> 2), b64Char ((a % 4) <<< 4)] ++ "=="
  | [a, b] =>
    String.mk [b64Char (a >>> 2), b64Char (((a % 4) <<< 4) ||| (b >>> 4)),
      b64Char ((b % 16) <<< 2)] ++ "="
  | a :: b :: c :: rest =>
    String.mk [b64Char (a >>> 2), b64Char (((a % 4) <<< 4) ||| (b >>> 4)),
      b64Char (((b % 16) <<< 2) ||| (c >>> 6)), b64Char (c % 64)] ++ base64Encode rest

/-- ASCII bytes of a string (all strings involved are ASCII). -/
def strBytes (s : String) : List Nat := s.data.map Char.toNat

/-! ## Handshake model

`ProxyConnection` is modelled as the observable connection state: the chunks
still unread from the peer, the text written to the peer so far, and the
number of `Read` calls issued.  `performHandshake` issues a single `Write`
and no `Read`, which the embedding mirrors by appending to `written`. -/

structure Config where
  DstAddress : String
  HandshakeCode : String
  TLSMode : String
  TLSEnabled : Bool
  MetricsEnabled : Bool

structure ConnState where
  input : List (List Nat)
  written : String
  readCount : Nat
deriving DecidableEq

def connWrite (c : ConnState) (s : String) : ConnState :=
  { c with written := c.written ++ s }

/-- `Sec-WebSocket-Accept` as computed by `performHandshake`: base64 of the
SHA-1 of the hardcoded key concatenated with the WebSocket GUID. -/
def secWebSocketAccept : String :=
  base64Encode (sha1 (strBytes (secWebSocketKey ++ webSocketMagicString)))

/-- The default WebSocket handshake response text. -/
def defaultWebSocketResponse : String :=
  "HTTP/1.1 " ++ defaultHandshakeStatus ++ "\r\n" ++
  "Upgrade: websocket\r\n" ++
  "Connection: Upgrade\r\n" ++
  "Sec-WebSocket-Accept: " ++ secWebSocketAccept ++ "\r\n\r\n"

/-- The custom handshake response text for a configured code. -/
def customHandshakeResponse (code : String) : String :=
  "HTTP/1.1 " ++ code ++ " Ok\r\n\r\n"

/-- `performHandshake`: write the custom response when a handshake code is
configured, the default WebSocket response otherwise.  No read is issued. -/
def performHandshake (cfg : Config) (c : ConnState) : ConnState :=
  if cfg.HandshakeCode ≠ "" then connWrite c (customHandshakeResponse cfg.HandshakeCode)
  else connWrite c defaultWebSocketResponse

/-! ## Payload discard (io.ReadAtLeast)

The client connection is modelled as a list of chunks: each `Read` call
returns (a prefix of) the head chunk, and an empty list is EOF.  `bufLen`
is the size of the destination buffer, so a `Read` into `buf[n:]` returns
at most `bufLen - n` bytes, the remainder staying unread. -/

structure DiscardResult where
  bytesRead : Nat
  ok : Bool
  rest : List (List Nat)
  consumed : List Nat
deriving DecidableEq

/-- The loop of `io.ReadAtLeast`: read into `buf[n:]` while `n < minB` and
no error occurred.  In the truncating branch the new count is `bufLen`,
which is `≥ minB` whenever the caller passed the `ErrShortBuffer`
pre-check, so the loop exits there with success recorded accordingly. -/
def readAtLeastLoop (bufLen minB : Nat) : Nat → List Nat → List (List Nat) → DiscardResult
  | n, consumed, stream =>
    if minB ≤ n then ⟨n, true, stream, consumed⟩
    else
      match stream with
      | [] => ⟨n, false, [], consumed⟩
      | c :: rest =>
        let space := bufLen - n
        if c.length ≤ space then
          readAtLeastLoop bufLen minB (n + c.length) (consumed ++ c) rest
        else
          ⟨bufLen, decide (minB ≤ bufLen), c.drop space :: rest, consumed ++ c.take space⟩

/-- `io.ReadAtLeast(r, buf, min)` with `len(buf) = bufLen`. -/
def readAtLeast (bufLen minB : Nat) (stream : List (List Nat)) : DiscardResult :=
  if bufLen < minB then ⟨0, false, stream, []⟩
  else readAtLeastLoop bufLen minB 0 [] stream

/-- `discardPayload`: `io.ReadAtLeast(conn, make([]byte, 32768), 5)`, the
read bytes dropped. -/
def discardPayload (stream : List (List Nat)) : DiscardResult :=
  readAtLeast defaultReadBufferSize 5 stream

/-- All bytes carried by a chunked stream, in order. -/
def streamBytes (stream : List (List Nat)) : List Nat := stream.flatten

/-! ## Connection orchestration (HandleConnection), as an event trace

Each call the orchestrator makes on its collaborators (logger, metrics,
dialer, sockets) is an event; `handleConnection` produces the exact event
sequence of the Go function for given outcomes of the fallible steps:
`hsWriteOk` is whether the handshake write succeeded, `dialOk` whether the
backend dial succeeded, `stream` the client bytes seen by `discardPayload`,
and `r1`/`r2` the results of the two relay copy directions (`none` =
clean EOF, `some e` = copy error `e`); `srcFirst` linearizes the two copy
goroutines.  `Ev.relayStart` marks the entry into `streamConnections`. -/

inductive Ev where
  | handshake
  | logError (m : String)
  | logDebug (dir : String)
  | recordError (t : String)
  | recordConnection (ty st : String)
  | recordConnectionClosed
  | recordConnectionDuration (ty : String)
  | dialAttempt
  | discardAttempt
  | relayStart
  | spawnCopy (dir : String)
  | chanSend
  | closeClient
  | closeDest
deriving DecidableEq

def Ev.isRecordConnection : Ev → Bool
  | .recordConnection _ _ => true
  | _ => false

def Ev.isRecordError : Ev → Bool
  | .recordError _ => true
  | _ => false

def Ev.isLogError : Ev → Bool
  | .logError _ => true
  | _ => false

/-- Events of one copy goroutine: a copy error is only sent to the result
channel; a clean completion is logged at debug level and sent. -/
def copyTaskEvents (dir : String) (r : Option String) : List Ev :=
  match r with
  | some _ => [Ev.chanSend]
  | none => [Ev.logDebug dir, Ev.chanSend]

/-- Events of `streamConnections`: spawn both copy goroutines, then their
events in the order `srcFirst` selects. -/
def streamConnectionsEvents (r1 r2 : Option String) (srcFirst : Bool) : List Ev :=
  [Ev.relayStart, Ev.spawnCopy "src_to_dst", Ev.spawnCopy "dst_to_src"] ++
  (if srcFirst then copyTaskEvents "src_to_dst" r1 ++ copyTaskEvents "dst_to_src" r2
   else copyTaskEvents "dst_to_src" r2 ++ copyTaskEvents "src_to_dst" r1)

def connTypeStr (isTLS : Bool) : String := if isTLS then "tls" else "http"

/-- Event trace of `HandleConnection`.  The trailing
`[closeClient, recordConnectionClosed]` is the deferred cleanup registered
on entry; `closeDest` is the deferral registered after a successful dial,
so it runs first (LIFO). -/
def handleConnection (cfg : Config) (isTLS hsWriteOk dialOk : Bool)
    (stream : List (List Nat)) (srcFirst : Bool) (r1 r2 : Option String) : List Ev :=
  let connType := connTypeStr isTLS
  let deferred : List Ev := [Ev.closeClient, Ev.recordConnectionClosed]
  if hsWriteOk = false then
    [Ev.handshake, Ev.logError "Handshake failed", Ev.recordError "handshake",
      Ev.recordConnection connType "failed"] ++ deferred
  else if dialOk = false then
    [Ev.handshake, Ev.dialAttempt,
      Ev.logError "Failed to connect to destination", Ev.recordError "destination",
      Ev.recordConnection connType "failed"] ++ deferred
  else if isTLS = true ∧ cfg.TLSMode = "stunnel" then
    [Ev.handshake, Ev.dialAttempt, Ev.recordConnection connType "success"] ++
    streamConnectionsEvents r1 r2 srcFirst ++
    [Ev.recordConnectionDuration (connType ++ "-stunnel"), Ev.closeDest] ++ deferred
  else if (discardPayload stream).ok = false then
    [Ev.handshake, Ev.dialAttempt, Ev.recordConnection connType "success",
      Ev.discardAttempt, Ev.logError "Failed to discard payload", Ev.recordError "payload",
      Ev.closeDest] ++ deferred
  else
    [Ev.handshake, Ev.dialAttempt, Ev.recordConnection connType "success",
      Ev.discardAttempt] ++
    streamConnectionsEvents r1 r2 srcFirst ++
    [Ev.recordConnectionDuration connType, Ev.closeDest] ++ deferred

/-! ## The result channel of streamConnections, small-step

`streamConnections` makes a channel of capacity two, spawns the two copy
goroutines (each performs one send), and executes a single receive.  A
schedule is a list of thread ids (0 = main, 1 and 2 = the copy
goroutines); a thread that cannot move leaves the state unchanged.  Main
program counter: 0 = about to spawn task 1, 1 = about to spawn task 2,
2 = blocked on the receive, 3 = returned. -/

structure RelayState where
  mainPc : Nat
  t1Spawned : Bool
  t2Spawned : Bool
  t1Done : Bool
  t2Done : Bool
  chan : List (Option String)
  recvCount : Nat
deriving DecidableEq

def relayInit : RelayState :=
  { mainPc := 0, t1Spawned := false, t2Spawned := false,
    t1Done := false, t2Done := false, chan := [], recvCount := 0 }

def relayStep (r1 r2 : Option String) (s : RelayState) : Nat → RelayState
  | 0 =>
    match s.mainPc with
    | 0 => { s with t1Spawned := true, mainPc := 1 }
    | 1 => { s with t2Spawned := true, mainPc := 2 }
    | 2 =>
      match s.chan with
      | [] => s
      | _ :: rest => { s with chan := rest, recvCount := s.recvCount + 1, mainPc := 3 }
    | _ + 3 => s
  | 1 =>
    if s.t1Spawned = true ∧ s.t1Done = false ∧ s.chan.length < 2 then
      { s with chan := s.chan ++ [r1], t1Done := true }
    else s
  | 2 =>
    if s.t2Spawned = true ∧ s.t2Done = false ∧ s.chan.length < 2 then
      { s with chan := s.chan ++ [r2], t2Done := true }
    else s
  | _ + 3 => s

def relayRun (r1 r2 : Option String) (sched : List Nat) : RelayState :=
  sched.foldl (relayStep r1 r2) relayInit

/-! ## Metrics construction (NewMetrics) -/

structure Metrics where
  enabled : Bool
deriving DecidableEq

def metricNames : List String :=
  ["gowsoos_connections_total", "gowsoos_connections_active",
   "gowsoos_bytes_transferred_total", "gowsoos_connection_duration_seconds",
   "gowsoos_errors_total"]

/-- `NewMetrics`: the constructed collector together with the list of
`prometheus.MustRegister` calls the construction performs. -/
def NewMetrics (enabled : Bool) : Metrics × List String :=
  ({ enabled := enabled }, if enabled then metricNames else [])

/-! ## Server start-up (Server.Start)

`httpRes`/`tlsRes` are the eventual return values of `startHTTPServer` and
`startTLSServer` (`none` = still running or clean, `some e` = the error
returned); each non-nil error is wrapped and sent to `serverErrChan`, whose
single consumer calls `Stop` when it receives a non-nil error.  A metrics
server failure is only logged, never sent to the channel.  `Start` itself
ends with `return nil` on every path. -/

structure StartOutcome where
  ret : Option String
  chanMsgs : List String
  consumerStops : Bool
deriving DecidableEq

/-- Startup outcome of `startHTTPServer`: resolve, then listen. -/
def startHTTPServer (resolveErr listenErr : Option String) : Option String :=
  match resolveErr with
  | some e => some ("failed to resolve TCP address: " ++ e)
  | none =>
    match listenErr with
    | some e => some ("failed to listen on HTTP server: " ++ e)
    | none => none

def serverStart (cfg : Config) (httpRes tlsRes : Option String) : StartOutcome :=
  let msgs :=
    (match httpRes with
     | some e => ["HTTP server failed: " ++ e]
     | none => []) ++
    (if cfg.TLSEnabled then
       match tlsRes with
       | some e => ["TLS server failed: " ++ e]
       | none => []
     else [])
  { ret := none, chanMsgs := msgs, consumerStops := !msgs.isEmpty }

/-! ## Theorems -/

/-- The concrete default response, with the accept value precomputed. -/
def defaultResponseLiteral : String :=
  "HTTP/1.1 101 Switching Protocols\r\nUpgrade: websocket\r\nConnection: Upgrade\r\nSec-WebSocket-Accept: SjHtBVMgyBRvoUUIjz1rGj0nK0g=\r\n\r\n"

set_option maxRecDepth 200000 in
lemma defaultWebSocketResponse_eq_literal :
    defaultWebSocketResponse = defaultResponseLiteral := by
  decide

/-- Claim C1: with no custom handshake code configured, `performHandshake`
writes to the client exactly the literal upgrade response whose accept
value is the base64 of the SHA-1 of the hardcoded key concatenated with
the WebSocket GUID; the output is the same constant string whatever the
connection state (in particular whatever the client sent), and no bytes
are read from the client. -/
theorem C1_default_handshake_constant (cfg : Config) (c : ConnState)
    (h : cfg.HandshakeCode = "") :
    (performHandshake cfg c).written = c.written ++ defaultResponseLiteral ∧
    (performHandshake cfg c).readCount = c.readCount ∧
    (performHandshake cfg c).input = c.input := by
  simp [performHandshake, h, connWrite, defaultWebSocketResponse_eq_literal]

/-- Witness for C1 at a concrete configuration and connection state. -/
theorem C1_default_handshake_constant_witness :
    (performHandshake
        { DstAddress := "127.0.0.1:22", HandshakeCode := "", TLSMode := "handshake",
          TLSEnabled := false, MetricsEnabled := false }
        { input := [[1, 2, 3]], written := "", readCount := 0 }).written =
      "" ++ defaultResponseLiteral :=
  (C1_default_handshake_constant
    { DstAddress := "127.0.0.1:22", HandshakeCode := "", TLSMode := "handshake",
      TLSEnabled := false, MetricsEnabled := false }
    { input := [[1, 2, 3]], written := "", readCount := 0 } rfl).1

/-- Claim C2: with a non-empty custom handshake code `C` configured,
`performHandshake` writes to the client exactly `HTTP/1.1 C Ok\r\n\r\n`
and reads nothing from the client. -/
theorem C2_custom_handshake (cfg : Config) (c : ConnState)
    (h : cfg.HandshakeCode ≠ "") :
    (performHandshake cfg c).written =
      c.written ++ ("HTTP/1.1 " ++ cfg.HandshakeCode ++ " Ok\r\n\r\n") ∧
    (performHandshake cfg c).readCount = c.readCount ∧
    (performHandshake cfg c).input = c.input := by
  simp [performHandshake, h, connWrite, customHandshakeResponse]

/-- Witness for C2 at code `200`. -/
theorem C2_custom_handshake_witness :
    (performHandshake
        { DstAddress := "127.0.0.1:22", HandshakeCode := "200", TLSMode := "handshake",
          TLSEnabled := false, MetricsEnabled := false }
        { input := [], written := "", readCount := 0 }).written =
      "" ++ ("HTTP/1.1 " ++ "200" ++ " Ok\r\n\r\n") :=
  (C2_custom_handshake
    { DstAddress := "127.0.0.1:22", HandshakeCode := "200", TLSMode := "handshake",
      TLSEnabled := false, MetricsEnabled := false }
    { input := [], written := "", readCount := 0 } (by decide)).1

lemma readAtLeastLoop_ok_iff (bufLen minB : Nat) (hbm : minB ≤ bufLen)
    (stream : List (List Nat)) :
    ∀ (n : Nat) (consumed : List Nat),
      (readAtLeastLoop bufLen minB n consumed stream).ok = true ↔
        minB ≤ n + (streamBytes stream).length := by
  induction stream with
  | nil =>
    intro n consumed
    simp only [readAtLeastLoop, streamBytes, List.flatten_nil, List.length_nil]
    split
    · simpa
    · simpa using by omega
  | cons c rest ih =>
    intro n consumed
    rw [readAtLeastLoop]
    split
    · rename_i hn
      simp only [streamBytes, List.flatten_cons, List.length_append]
      simpa using by omega
    · rename_i hn
      simp only
      split
      · rename_i hlen
        rw [ih]
        simp only [streamBytes, List.flatten_cons, List.length_append]
        omega
      · rename_i hlen
        simp only [streamBytes, List.flatten_cons, List.length_append, decide_eq_true_eq]
        constructor
        · intro _; omega
        · intro _; omega

lemma readAtLeastLoop_consumed (bufLen minB : Nat) (stream : List (List Nat)) :
    ∀ (n : Nat) (consumed : List Nat),
      consumed.length = n → n ≤ bufLen →
      (readAtLeastLoop bufLen minB n consumed stream).consumed.length ≤ bufLen ∧
      (readAtLeastLoop bufLen minB n consumed stream).consumed ++
          streamBytes (readAtLeastLoop bufLen minB n consumed stream).rest =
        consumed ++ streamBytes stream := by
  induction stream with
  | nil =>
    intro n consumed hlen hle
    simp only [readAtLeastLoop, streamBytes, List.flatten_nil, List.append_nil]
    split <;> simp <;> omega
  | cons c rest ih =>
    intro n consumed hlen hle
    rw [readAtLeastLoop]
    split
    · simpa using by omega
    · rename_i hn
      simp only
      split
      · rename_i hc
        have := ih (n + c.length) (consumed ++ c) (by simp [hlen]) (by omega)
        simpa [streamBytes, List.append_assoc] using this
      · rename_i hc
        constructor
        · simp
          omega
        · simp [streamBytes, List.append_assoc, ← List.append_assoc (List.take (bufLen - n) c),
            List.take_append_drop]

/-- Claim C5: `discardPayload` succeeds iff the client delivers at least 5
bytes before EOF; it consumes at most 32768 bytes (its buffer size); and
the consumed bytes are exactly a prefix of the client byte stream, the
unconsumed suffix being all that remains for the relay — so no discarded
byte is forwarded. -/
theorem C5_discardPayload_spec (stream : List (List Nat)) :
    ((discardPayload stream).ok = true ↔ 5 ≤ (streamBytes stream).length) ∧
    (discardPayload stream).consumed.length ≤ 32768 ∧
    (discardPayload stream).consumed ++ streamBytes (discardPayload stream).rest =
      streamBytes stream := by
  have hok := readAtLeastLoop_ok_iff 32768 5 (by norm_num) stream 0 []
  have hc := readAtLeastLoop_consumed 32768 5 stream 0 [] rfl (by norm_num)
  have hunf : discardPayload stream = readAtLeastLoop 32768 5 0 [] stream := by
    simp [discardPayload, readAtLeast, defaultReadBufferSize]
  rw [hunf]
  simp only [List.nil_append] at hc
  exact ⟨by simpa using hok, hc.1, hc.2⟩

lemma countP_copyTaskEvents (p : Ev → Bool) (dir : String) (r : Option String)
    (hc : p Ev.chanSend = false) (hd : ∀ d, p (Ev.logDebug d) = false) :
    (copyTaskEvents dir r).countP p = 0 := by
  cases r <;> simp [copyTaskEvents, List.countP_cons, hc, hd]

lemma countP_streamConnectionsEvents (p : Ev → Bool) (r1 r2 : Option String) (sf : Bool)
    (hr : p Ev.relayStart = false) (hs : ∀ d, p (Ev.spawnCopy d) = false)
    (hc : p Ev.chanSend = false) (hd : ∀ d, p (Ev.logDebug d) = false) :
    (streamConnectionsEvents r1 r2 sf).countP p = 0 := by
  cases sf <;>
    simp [streamConnectionsEvents, List.countP_append, List.countP_cons,
      countP_copyTaskEvents p _ _ hc hd, hr, hs]

lemma mem_streamConnectionsEvents {e : Ev} {r1 r2 : Option String} {sf : Bool}
    (he : e ∈ streamConnectionsEvents r1 r2 sf) :
    e = Ev.relayStart ∨ e = Ev.spawnCopy "src_to_dst" ∨ e = Ev.spawnCopy "dst_to_src" ∨
      e = Ev.chanSend ∨ e = Ev.logDebug "src_to_dst" ∨ e = Ev.logDebug "dst_to_src" := by
  cases sf <;> cases r1 <;> cases r2 <;>
    simp [streamConnectionsEvents, copyTaskEvents] at he <;> tauto

lemma discardAttempt_not_mem_streamConnectionsEvents (r1 r2 : Option String) (sf : Bool) :
    Ev.discardAttempt ∉ streamConnectionsEvents r1 r2 sf := by
  intro h
  rcases mem_streamConnectionsEvents h with h | h | h | h | h | h <;> cases h

/-- Claim C3: on every accepted connection, whatever its origin,
`performHandshake` is the first action (index 0 of the trace), the dial
strictly follows it, the relay strictly follows the dial, and on any path
that reaches the relay, `discardPayload` is invoked exactly when the
connection is not a TLS-listener connection in stunnel mode. -/
theorem C3_orchestration_order (cfg : Config) (isTLS hsWriteOk dialOk : Bool)
    (stream : List (List Nat)) (srcFirst : Bool) (r1 r2 : Option String) :
    (handleConnection cfg isTLS hsWriteOk dialOk stream srcFirst r1 r2).head? =
      some Ev.handshake ∧
    (Ev.relayStart ∈ handleConnection cfg isTLS hsWriteOk dialOk stream srcFirst r1 r2 →
      ((handleConnection cfg isTLS hsWriteOk dialOk stream srcFirst r1 r2).findIdx
          (fun e => decide (e = Ev.handshake)) <
        (handleConnection cfg isTLS hsWriteOk dialOk stream srcFirst r1 r2).findIdx
          (fun e => decide (e = Ev.dialAttempt)) ∧
       (handleConnection cfg isTLS hsWriteOk dialOk stream srcFirst r1 r2).findIdx
          (fun e => decide (e = Ev.dialAttempt)) <
        (handleConnection cfg isTLS hsWriteOk dialOk stream srcFirst r1 r2).findIdx
          (fun e => decide (e = Ev.relayStart))) ∧
      (Ev.discardAttempt ∈ handleConnection cfg isTLS hsWriteOk dialOk stream srcFirst r1 r2 ↔
        ¬(isTLS = true ∧ cfg.TLSMode = "stunnel"))) := by
  have hd1 : ∀ (d : String) (r : Option String), Ev.discardAttempt ∉ copyTaskEvents d r := by
    intro d r; cases r <;> simp [copyTaskEvents]
  by_cases hm : cfg.TLSMode = "stunnel" <;>
    cases isTLS <;> cases hsWriteOk <;> cases dialOk <;> cases srcFirst <;>
      cases hdisc : (discardPayload stream).ok <;>
        simp [handleConnection, hm, hdisc, streamConnectionsEvents, List.findIdx_cons,
          connTypeStr, hd1]

/-- Witness for C3 on a run that reaches the relay. -/
theorem C3_orchestration_order_witness :
    (handleConnection
        { DstAddress := "127.0.0.1:22", HandshakeCode := "", TLSMode := "handshake",
          TLSEnabled := false, MetricsEnabled := false }
        false true true [[1, 2, 3, 4, 5]] true none none).findIdx
        (fun e => decide (e = Ev.handshake)) <
      (handleConnection
        { DstAddress := "127.0.0.1:22", HandshakeCode := "", TLSMode := "handshake",
          TLSEnabled := false, MetricsEnabled := false }
        false true true [[1, 2, 3, 4, 5]] true none none).findIdx
        (fun e => decide (e = Ev.dialAttempt)) := by
  obtain ⟨-, h⟩ :=
    C3_orchestration_order
      { DstAddress := "127.0.0.1:22", HandshakeCode := "", TLSMode := "handshake",
        TLSEnabled := false, MetricsEnabled := false }
      false true true [[1, 2, 3, 4, 5]] true none none
  exact (h (by decide)).1.1

/-- Claim C6: every run of `HandleConnection`, on every exit path, records
exactly one connection increment (`RecordConnection`) and exactly one
closure decrement (`RecordConnectionClosed`), and closes the client
socket. -/
theorem C6_metrics_symmetry (cfg : Config) (isTLS hsWriteOk dialOk : Bool)
    (stream : List (List Nat)) (srcFirst : Bool) (r1 r2 : Option String) :
    (handleConnection cfg isTLS hsWriteOk dialOk stream srcFirst r1 r2).countP
        Ev.isRecordConnection = 1 ∧
    (handleConnection cfg isTLS hsWriteOk dialOk stream srcFirst r1 r2).countP
        (fun e => decide (e = Ev.recordConnectionClosed)) = 1 ∧
    Ev.closeClient ∈ handleConnection cfg isTLS hsWriteOk dialOk stream srcFirst r1 r2 := by
  have h1 := countP_streamConnectionsEvents Ev.isRecordConnection r1 r2 srcFirst
    rfl (fun d => rfl) rfl (fun d => rfl)
  have h2 := countP_streamConnectionsEvents (fun e => decide (e = Ev.recordConnectionClosed))
    r1 r2 srcFirst rfl (fun d => rfl) rfl (fun d => rfl)
  by_cases hm : cfg.TLSMode = "stunnel" <;>
    cases isTLS <;> cases hsWriteOk <;> cases dialOk <;>
      cases hdisc : (discardPayload stream).ok <;>
        simp [handleConnection, hm, hdisc, List.countP_append, List.countP_cons,
          Ev.isRecordConnection, h1, h2]

/-- Claim C7 as stated is false: relay copy errors are sent to the result
channel and discarded, never logged and never reported to the metrics
sink.  In this concrete run the src-to-dst copy fails with error
`copy failed` (the `some "copy failed"` argument), yet the trace contains
no `RecordError` call and no error-level log call. -/
theorem C7_counterexample :
    (handleConnection
        { DstAddress := "127.0.0.1:22", HandshakeCode := "", TLSMode := "handshake",
          TLSEnabled := false, MetricsEnabled := false }
        false true true [[1, 2, 3, 4, 5]] true (some "copy failed") none).countP
      Ev.isRecordError = 0 ∧
    (handleConnection
        { DstAddress := "127.0.0.1:22", HandshakeCode := "", TLSMode := "handshake",
          TLSEnabled := false, MetricsEnabled := false }
        false true true [[1, 2, 3, 4, 5]] true (some "copy failed") none).countP
      Ev.isLogError = 0 ∧
    Ev.chanSend ∈ handleConnection
        { DstAddress := "127.0.0.1:22", HandshakeCode := "", TLSMode := "handshake",
          TLSEnabled := false, MetricsEnabled := false }
        false true true [[1, 2, 3, 4, 5]] true (some "copy failed") none := by
  decide

/-- Claim C7 amended: handshake, dial and payload-discard errors are each
terminal, logged exactly once, reported exactly once to the metrics sink,
never retried, and the client socket is closed; relay copy errors are
likewise terminal and unretried with the socket closed, but they produce
no log call and no metrics report (their events carry no `recordError`
and no error-level log). -/
theorem C7_amended_error_handling (cfg : Config) (isTLS hsWriteOk dialOk : Bool)
    (stream : List (List Nat)) (srcFirst : Bool) (r1 r2 : Option String) :
    (hsWriteOk = false →
      (handleConnection cfg isTLS hsWriteOk dialOk stream srcFirst r1 r2).countP
          (fun e => decide (e = Ev.recordError "handshake")) = 1 ∧
      (handleConnection cfg isTLS hsWriteOk dialOk stream srcFirst r1 r2).countP
          Ev.isLogError = 1 ∧
      (handleConnection cfg isTLS hsWriteOk dialOk stream srcFirst r1 r2).countP
          (fun e => decide (e = Ev.handshake)) = 1 ∧
      Ev.relayStart ∉ handleConnection cfg isTLS hsWriteOk dialOk stream srcFirst r1 r2) ∧
    (hsWriteOk = true → dialOk = false →
      (handleConnection cfg isTLS hsWriteOk dialOk stream srcFirst r1 r2).countP
          (fun e => decide (e = Ev.recordError "destination")) = 1 ∧
      (handleConnection cfg isTLS hsWriteOk dialOk stream srcFirst r1 r2).countP
          Ev.isLogError = 1 ∧
      (handleConnection cfg isTLS hsWriteOk dialOk stream srcFirst r1 r2).countP
          (fun e => decide (e = Ev.dialAttempt)) = 1 ∧
      Ev.relayStart ∉ handleConnection cfg isTLS hsWriteOk dialOk stream srcFirst r1 r2) ∧
    (hsWriteOk = true → dialOk = true → ¬(isTLS = true ∧ cfg.TLSMode = "stunnel") →
      (discardPayload stream).ok = false →
      (handleConnection cfg isTLS hsWriteOk dialOk stream srcFirst r1 r2).countP
          (fun e => decide (e = Ev.recordError "payload")) = 1 ∧
      (handleConnection cfg isTLS hsWriteOk dialOk stream srcFirst r1 r2).countP
          Ev.isLogError = 1 ∧
      (handleConnection cfg isTLS hsWriteOk dialOk stream srcFirst r1 r2).countP
          (fun e => decide (e = Ev.discardAttempt)) = 1 ∧
      Ev.relayStart ∉ handleConnection cfg isTLS hsWriteOk dialOk stream srcFirst r1 r2) ∧
    ((streamConnectionsEvents r1 r2 srcFirst).countP Ev.isRecordError = 0 ∧
     (streamConnectionsEvents r1 r2 srcFirst).countP Ev.isLogError = 0) ∧
    Ev.closeClient ∈ handleConnection cfg isTLS hsWriteOk dialOk stream srcFirst r1 r2 := by
  have h1 := countP_streamConnectionsEvents Ev.isRecordError r1 r2 srcFirst
    rfl (fun d => rfl) rfl (fun d => rfl)
  have h2 := countP_streamConnectionsEvents Ev.isLogError r1 r2 srcFirst
    rfl (fun d => rfl) rfl (fun d => rfl)
  by_cases hm : cfg.TLSMode = "stunnel" <;>
    cases isTLS <;> cases hsWriteOk <;> cases dialOk <;>
      cases hdisc : (discardPayload stream).ok <;>
        simp [handleConnection, hm, hdisc, List.countP_append, List.countP_cons,
          Ev.isRecordError, Ev.isLogError, h1, h2]

/-- Witness for C7 amended, on a handshake-failure run. -/
theorem C7_amended_error_handling_witness :
    (handleConnection
        { DstAddress := "127.0.0.1:22", HandshakeCode := "", TLSMode := "handshake",
          TLSEnabled := false, MetricsEnabled := false }
        false false true [] true none none).countP
      (fun e => decide (e = Ev.recordError "handshake")) = 1 :=
  ((C7_amended_error_handling
    { DstAddress := "127.0.0.1:22", HandshakeCode := "", TLSMode := "handshake",
      TLSEnabled := false, MetricsEnabled := false }
    false false true [] true none none).1 rfl).1

/-- Claim C8: with the handshake done and the backend dial failing, the
orchestrator logs the dial failure, records a `destination` error and a
`failed` connection status, and returns after cleanup without entering the
relay or spawning any copy task. -/
theorem C8_dial_failure_aborts (cfg : Config) (isTLS : Bool) (stream : List (List Nat))
    (srcFirst : Bool) (r1 r2 : Option String) :
    handleConnection cfg isTLS true false stream srcFirst r1 r2 =
      [Ev.handshake, Ev.dialAttempt, Ev.logError "Failed to connect to destination",
       Ev.recordError "destination", Ev.recordConnection (connTypeStr isTLS) "failed",
       Ev.closeClient, Ev.recordConnectionClosed] ∧
    Ev.relayStart ∉ handleConnection cfg isTLS true false stream srcFirst r1 r2 ∧
    (∀ d, Ev.spawnCopy d ∉ handleConnection cfg isTLS true false stream srcFirst r1 r2) := by
  simp [handleConnection]

/-! ## Invariant of the streamConnections channel model -/

def RelayInv (s : RelayState) : Prop :=
  s.mainPc ≤ 3 ∧
  (s.mainPc < 3 → s.recvCount = 0) ∧
  (s.mainPc = 3 → s.recvCount = 1) ∧
  (1 ≤ s.mainPc → s.t1Spawned = true) ∧
  (2 ≤ s.mainPc → s.t2Spawned = true) ∧
  (s.chan ≠ [] → s.t1Done = true ∨ s.t2Done = true) ∧
  (s.mainPc = 3 → s.t1Done = true ∨ s.t2Done = true)

lemma relayInv_init : RelayInv relayInit := by
  simp [RelayInv, relayInit]

lemma relayInv_step (r1 r2 : Option String) (s : RelayState) (tid : Nat)
    (h : RelayInv s) : RelayInv (relayStep r1 r2 s tid) := by
  obtain ⟨pc, t1s, t2s, t1d, t2d, ch, rc⟩ := s
  obtain ⟨h1, h2, h3, h4, h5, h6, h7⟩ := h
  simp only at h1 h2 h3 h4 h5 h6 h7
  rcases tid with _ | _ | _ | tid
  · interval_cases pc
    · refine ⟨?_, ?_, ?_, ?_, ?_, ?_, ?_⟩ <;> simp_all [relayStep, RelayInv]
    · refine ⟨?_, ?_, ?_, ?_, ?_, ?_, ?_⟩ <;> simp_all [relayStep, RelayInv]
    · rcases ch with _ | ⟨v, rest⟩ <;>
        · refine ⟨?_, ?_, ?_, ?_, ?_, ?_, ?_⟩ <;> simp_all [relayStep, RelayInv]
    · refine ⟨?_, ?_, ?_, ?_, ?_, ?_, ?_⟩ <;> simp_all [relayStep, RelayInv]
  · by_cases hc : t1s = true ∧ t1d = false ∧ ch.length < 2
    · simp only [relayStep, if_pos hc]
      exact ⟨h1, h2, h3, h4, h5, fun _ => Or.inl rfl, fun _ => Or.inl rfl⟩
    · simp only [relayStep, if_neg hc]
      exact ⟨h1, h2, h3, h4, h5, h6, h7⟩
  · by_cases hc : t2s = true ∧ t2d = false ∧ ch.length < 2
    · simp only [relayStep, if_pos hc]
      exact ⟨h1, h2, h3, h4, h5, fun _ => Or.inr rfl, fun _ => Or.inr rfl⟩
    · simp only [relayStep, if_neg hc]
      exact ⟨h1, h2, h3, h4, h5, h6, h7⟩
  · refine ⟨?_, ?_, ?_, ?_, ?_, ?_, ?_⟩ <;> simp_all [relayStep, RelayInv]

lemma relayInv_run (r1 r2 : Option String) (sched : List Nat) :
    RelayInv (relayRun r1 r2 sched) := by
  suffices h : ∀ s, RelayInv s → RelayInv (sched.foldl (relayStep r1 r2) s) from
    h relayInit relayInv_init
  induction sched with
  | nil => intro s hs; simpa using hs
  | cons t ts ih => intro s hs; exact ih _ (relayInv_step r1 r2 s t hs)

/-- Claim C4: `streamConnections` spawns the two copy goroutines and then
performs a single receive on the capacity-two result channel: under every
schedule the main thread receives at most once, it can only have returned
after at least one copy task completed, a pending result unblocks it in
one step (it returns as soon as the first task signals), and there is a
schedule on which it returns while the second task has not completed —
so it never waits for the second direction. -/
theorem C4_relay_first_completion (r1 r2 : Option String) (sched : List Nat) :
    (relayRun r1 r2 sched).recvCount ≤ 1 ∧
    (2 ≤ (relayRun r1 r2 sched).mainPc →
      (relayRun r1 r2 sched).t1Spawned = true ∧ (relayRun r1 r2 sched).t2Spawned = true) ∧
    ((relayRun r1 r2 sched).mainPc = 3 →
      (relayRun r1 r2 sched).recvCount = 1 ∧
      ((relayRun r1 r2 sched).t1Done = true ∨ (relayRun r1 r2 sched).t2Done = true)) ∧
    (∀ s : RelayState, s.mainPc = 2 → s.chan ≠ [] → (relayStep r1 r2 s 0).mainPc = 3) ∧
    ((relayRun r1 r2 [0, 0, 1, 0]).mainPc = 3 ∧
     (relayRun r1 r2 [0, 0, 1, 0]).recvCount = 1 ∧
     (relayRun r1 r2 [0, 0, 1, 0]).t2Done = false) := by
  obtain ⟨h1, h2, h3, h4, h5, h6, h7⟩ := relayInv_run r1 r2 sched
  refine ⟨?_, fun hpc => ⟨h4 (by omega), h5 hpc⟩, fun hpc => ⟨h3 hpc, h7 hpc⟩, ?_, ?_⟩
  · by_cases hpc : (relayRun r1 r2 sched).mainPc = 3
    · have := h3 hpc
      omega
    · have := h2 (by omega)
      omega
  · intro s hs hch
    obtain ⟨pc, t1s, t2s, t1d, t2d, ch, rc⟩ := s
    simp only at hs hch
    subst hs
    rcases ch with _ | ⟨v, rest⟩
    · cases hch rfl
    · simp [relayStep]
  · simp [relayRun, relayStep, relayInit]

/-- Witness for C4 on a concrete schedule and copy results. -/
theorem C4_relay_first_completion_witness :
    (relayRun (some "copy error") none [0, 0, 1, 0]).mainPc = 3 ∧
    (relayRun (some "copy error") none [0, 0, 1, 0]).recvCount = 1 ∧
    (relayRun (some "copy error") none [0, 0, 1, 0]).t2Done = false ∧
    ((relayRun (some "copy error") none [0, 0, 1, 0]).t1Done = true ∨
      (relayRun (some "copy error") none [0, 0, 1, 0]).t2Done = true) := by
  obtain ⟨-, -, h3, -, hrun⟩ :=
    C4_relay_first_completion (some "copy error") none [0, 0, 1, 0]
  exact ⟨hrun.1, hrun.2.1, hrun.2.2, (h3 hrun.1).2⟩

/-- Claim C9 as stated is false: constructing the metrics collector with
metrics disabled performs no Prometheus registration at all, while an
enabled construction registers the five collectors — the registration step
is conditional on the enabled flag, not unconditional. -/
theorem C9_counterexample :
    (NewMetrics false).2 = [] ∧ (NewMetrics true).2 ≠ [] := by
  decide

/-- Claim C9 amended: the Prometheus registration step runs on
construction exactly when metrics are enabled; each enabled construction
registers all five collectors anew (no idempotence guard), and a disabled
construction registers nothing. -/
theorem C9_amended_registration (enabled : Bool) :
    ((NewMetrics enabled).2 ≠ [] ↔ enabled = true) ∧
    (NewMetrics true).2 = metricNames ∧
    (NewMetrics false).2 = [] ∧
    (∀ n : Nat, ((List.replicate n (NewMetrics true).2).flatten).length = 5 * n) ∧
    (NewMetrics enabled).1.enabled = enabled := by
  refine ⟨?_, rfl, rfl, ?_, rfl⟩
  · cases enabled <;> simp [NewMetrics, metricNames]
  · intro n
    induction n with
    | zero => simp
    | succ k ih =>
      simp only [List.replicate_succ, List.flatten_cons, List.length_append, ih]
      simp [NewMetrics, metricNames]
      ring

/-- Claim C10: `Server.Start` returns `nil` whatever later happens to the
listeners; a fatal HTTP or TLS listener error is wrapped and delivered on
the internal `serverErrChan` only, and the channel consumer calls `Stop`
exactly when some error was delivered. -/
theorem C10_start_returns_nil (cfg : Config) (httpRes tlsRes : Option String) :
    (serverStart cfg httpRes tlsRes).ret = none ∧
    (∀ e, httpRes = some e →
      ("HTTP server failed: " ++ e) ∈ (serverStart cfg httpRes tlsRes).chanMsgs) ∧
    (∀ e, cfg.TLSEnabled = true → tlsRes = some e →
      ("TLS server failed: " ++ e) ∈ (serverStart cfg httpRes tlsRes).chanMsgs) ∧
    ((serverStart cfg httpRes tlsRes).chanMsgs ≠ [] →
      (serverStart cfg httpRes tlsRes).consumerStops = true) ∧
    ((serverStart cfg httpRes tlsRes).chanMsgs = [] →
      (serverStart cfg httpRes tlsRes).consumerStops = false) := by
  cases hT : cfg.TLSEnabled <;> rcases httpRes with _ | e1 <;> rcases tlsRes with _ | e2 <;>
    simp [serverStart, hT]

/-- Witness for C10: a failing resolve step in `startHTTPServer` is
delivered on the channel and triggers the consumer, while `Start` still
returns `nil`. -/
theorem C10_start_returns_nil_witness :
    (serverStart
        { DstAddress := "127.0.0.1:22", HandshakeCode := "", TLSMode := "handshake",
          TLSEnabled := false, MetricsEnabled := false }
        (startHTTPServer (some "no such host") none) none).ret = none ∧
    ("HTTP server failed: " ++ "failed to resolve TCP address: no such host") ∈
      (serverStart
        { DstAddress := "127.0.0.1:22", HandshakeCode := "", TLSMode := "handshake",
          TLSEnabled := false, MetricsEnabled := false }
        (startHTTPServer (some "no such host") none) none).chanMsgs := by
  obtain ⟨hret, hmem, -, -, -⟩ :=
    C10_start_returns_nil
      { DstAddress := "127.0.0.1:22", HandshakeCode := "", TLSMode := "handshake",
        TLSEnabled := false, MetricsEnabled := false }
      (startHTTPServer (some "no such host") none) none
  exact ⟨hret, hmem "failed to resolve TCP address: no such host" (by decide)⟩

end Gowsoos
